import Mathlib

/-!
Verification of `ci/generate_azure_pipelines_matrices.py`.

The script builds a matrix of Qt build jobs, derives a key and a flat
variable mapping for each (job, python-version) pair, groups the result
per platform, serialises it to JSON and prints Azure-Pipelines
variable-setting lines.  Every definition below is a shallow embedding of
the corresponding Python construct; ordered dictionaries become
association lists (insertion order preserved), fallible code returns
`Option`.
-/

set_option maxRecDepth 4096
set_option linter.unusedVariables false

/-- Python `str.split(c)` on a single-character separator: always returns a
non-empty list of segments. -/
def splitOnChar (c : Char) : List Char → List (List Char)
  | [] => [[]]
  | x :: xs =>
    if x = c then [] :: splitOnChar c xs
    else
      match splitOnChar c xs with
      | [] => [[x]]
      | r :: rs => (x :: r) :: rs

/-- Strips a literal pattern from the front of a character list, returning
the remainder on success. -/
def dropStart : List Char → List Char → Option (List Char)
  | [], cs => some cs
  | p :: ps, c :: cs => if c = p then dropStart ps cs else none
  | _ :: _, [] => none

/-- The codepoint ranges matched by Python's regex `\d` on `str` patterns:
every Unicode decimal digit (category Nd), not just ASCII `0-9`.  The
table lists the closed ranges of Nd codepoints (Unicode 14.0, as shipped
with CPython 3.11's `re`). -/
def ndDigitRanges : List (Nat × Nat) :=
  [(48, 57), (1632, 1641), (1776, 1785), (1984, 1993), (2406, 2415),
   (2534, 2543), (2662, 2671), (2790, 2799), (2918, 2927), (3046, 3055),
   (3174, 3183), (3302, 3311), (3430, 3439), (3558, 3567), (3664, 3673),
   (3792, 3801), (3872, 3881), (4160, 4169), (4240, 4249), (6112, 6121),
   (6160, 6169), (6470, 6479), (6608, 6617), (6784, 6793), (6800, 6809),
   (6992, 7001), (7088, 7097), (7232, 7241), (7248, 7257), (42528, 42537),
   (43216, 43225), (43264, 43273), (43472, 43481), (43504, 43513),
   (43600, 43609), (44016, 44025), (65296, 65305), (66720, 66729),
   (68912, 68921), (69734, 69743), (69872, 69881), (69942, 69951),
   (70096, 70105), (70384, 70393), (70736, 70745), (70864, 70873),
   (71248, 71257), (71360, 71369), (71472, 71481), (71904, 71913),
   (72016, 72025), (72784, 72793), (73040, 73049), (73120, 73129),
   (92768, 92777), (92864, 92873), (93008, 93017), (120782, 120831),
   (123200, 123209), (123632, 123641), (125264, 125273), (130032, 130041)]

/-- A character matched by Python's `\d`: any Unicode decimal digit. -/
def isDigitRe (c : Char) : Bool :=
  ndDigitRanges.any (fun r => decide (r.1 ≤ c.toNat ∧ c.toNat ≤ r.2))

/-- The regex match `re.match(r"^win(\d+)_(mingw\d+)$", v)` from
`BuildJob.mingw_folder`, returning the two digit groups (group 1, and the
digits of group 2 after the literal `mingw`).  `\d` matches any Unicode
decimal digit (`isDigitRe`).  The regex is deterministic: `\d+` cannot
backtrack into the literal `_` or past `$`. -/
def parseMingw (cs : List Char) : Option (List Char × List Char) :=
  (dropStart "win".data cs).bind (fun rest =>
    let d1 := rest.takeWhile isDigitRe
    if d1 = [] then none
    else (dropStart "_mingw".data (rest.dropWhile isDigitRe)).bind (fun rest2 =>
      let d2 := rest2.takeWhile isDigitRe
      if d2 = [] then none
      else if rest2.dropWhile isDigitRe = [] then some (d1, d2) else none))

/-- Method `BuildJob.mingw_folder` on the variant string.  Empty input returns `""`
(the `if not self.mingw_variant` guard); a failed regex match makes the
Python subscription `match[2]` raise `TypeError`, modelled as `none`. -/
def mingw_folder (v : String) : Option String :=
  if v = "" then some ""
  else
    match parseMingw v.data with
    | none => none
    | some (d1, d2) =>
      some (String.mk ('m' :: 'i' :: 'n' :: 'g' :: 'w' :: (d2 ++ '_' :: d1)))

/-- One row of the job catalog (class `BuildJob`), with the constructor's
default values.  Python `None` becomes `none`; the option dictionaries
become association lists. -/
structure BuildJob where
  command : String
  qt_version : String
  host : String
  target : String
  arch : String
  archdir : String
  module : Option String := none
  mirror : Option String := none
  subarchives : Option String := none
  output_dir : Option String := none
  list_options : List (String × String) := []
  spec : Option String := none
  mingw_variant : String := ""
  is_autodesktop : Bool := false
  tool_options : List (String × String) := []
  check_output_cmd : Option String := none
  emsdk_version : String := "sdk-fastcomp-1.38.27-64bit@3.1.29"
  autodesk_arch_folder : Option String := none
deriving Repr

/-- Python truthiness of an optional string: `None` and `""` are falsy. -/
def truthy : Option String → Bool
  | none => false
  | some s => !(s == "")

/-- The `out_dir` expression shared by `qt_bindir` and `autodesk_qt_bindir`:
the `output_dir` override when truthy, else `$(Build.BinariesDirectory){sep}Qt`. -/
def qtOutDir (j : BuildJob) (sep : String) : String :=
  if truthy j.output_dir then j.output_dir.getD ""
  else "$(Build.BinariesDirectory)" ++ sep ++ "Qt"

/-- The `version_dir` expression: `"5.9"` for version `"5.9.0"`, else the
version string verbatim. -/
def qtVersionDir (j : BuildJob) : String :=
  if j.qt_version = "5.9.0" then "5.9" else j.qt_version

/-- Method `BuildJob.qt_bindir(sep)`. -/
def BuildJob.qt_bindir (j : BuildJob) (sep : String) : String :=
  qtOutDir j sep ++ sep ++ qtVersionDir j ++ sep ++ j.archdir ++ sep ++ "bin"

/-- Method `BuildJob.win_qt_bindir()`: `qt_bindir` with a backslash separator. -/
def BuildJob.win_qt_bindir (j : BuildJob) : String :=
  j.qt_bindir "\\"

/-- Method `BuildJob.autodesk_qt_bindir(sep)`: like `qt_bindir` but using
`self.autodesk_arch_folder or self.archdir` (Python `or`: first truthy). -/
def BuildJob.autodesk_qt_bindir (j : BuildJob) (sep : String) : String :=
  qtOutDir j sep ++ sep ++ qtVersionDir j ++ sep ++
    (if truthy j.autodesk_arch_folder then j.autodesk_arch_folder.getD "" else j.archdir)
    ++ sep ++ "bin"

/-- Method `BuildJob.win_autodesk_qt_bindir()`. -/
def BuildJob.win_autodesk_qt_bindir (j : BuildJob) : String :=
  j.autodesk_qt_bindir "\\"

/-- The pair `((v+"@main").split('@')[0], (v+"@main").split('@')[1])` used
for the `EMSDK_VERSION` and `EMSDK_TAG` variables. -/
def emsdk_split (v : String) : String × String :=
  let parts := splitOnChar '@' (v.data ++ '@' :: "main".data)
  (String.mk (parts.getD 0 []), String.mk (parts.getD 1 []))

/-- The matrix key `"<command> <qt_version> <arch> for <target>"` with the
optional suffixes appended when the corresponding field is truthy. -/
def matrixKey (j : BuildJob) : String :=
  let k0 := j.command ++ " " ++ j.qt_version ++ " " ++ j.arch ++ " for " ++ j.target
  let k1 := if truthy j.spec then k0 ++ " (spec=\"" ++ j.spec.getD "" ++ "\")" else k0
  let k2 := if truthy j.module then k1 ++ " (" ++ j.module.getD "" ++ ")" else k1
  let k3 := if truthy j.subarchives then k2 ++ " (" ++ j.subarchives.getD "" ++ ")" else k2
  if truthy j.output_dir then k3 ++ " (" ++ j.output_dir.getD "" ++ ")" else k3

/-- The ordered inner variable mapping built for one (job, python-version)
pair.  The only fallible step is `mingw_folder()`; its failure propagates
as `none` (the Python script would die with a `TypeError`). -/
def jobVariables (j : BuildJob) (pythonVersion : String) :
    Option (List (String × String)) :=
  (mingw_folder j.mingw_variant).map (fun mf =>
    [
      ("PYTHON_VERSION", pythonVersion),
      ("SUBCOMMAND", j.command),
      ("QT_VERSION", j.qt_version),
      ("HOST", j.host),
      ("TARGET", j.target),
      ("ARCH", j.arch),
      ("ARCHDIR", j.archdir),
      ("MODULE", if truthy j.module then j.module.getD "" else ""),
      ("QT_BASE_MIRROR", if truthy j.mirror then j.mirror.getD "" else ""),
      ("SUBARCHIVES", if truthy j.subarchives then j.subarchives.getD "" else ""),
      ("SPEC", if truthy j.spec then j.spec.getD "" else ""),
      ("MINGW_VARIANT", j.mingw_variant),
      ("MINGW_FOLDER", mf),
      ("IS_AUTODESKTOP", if j.is_autodesktop then "True" else "False"),
      ("HAS_WASM", (j.list_options.lookup "HAS_WASM").getD "True"),
      ("OUTPUT_DIR", if truthy j.output_dir then j.output_dir.getD "" else ""),
      ("QT_BINDIR", j.qt_bindir "/"),
      ("WIN_QT_BINDIR", j.win_qt_bindir),
      ("EMSDK_VERSION", (emsdk_split j.emsdk_version).1),
      ("EMSDK_TAG", (emsdk_split j.emsdk_version).2),
      ("WIN_AUTODESK_QT_BINDIR", j.win_autodesk_qt_bindir),
      ("TOOL1_ARGS", (j.tool_options.lookup "TOOL1_ARGS").getD ""),
      ("LIST_TOOL1_CMD", (j.tool_options.lookup "LIST_TOOL1_CMD").getD ""),
      ("TEST_TOOL1_CMD", (j.tool_options.lookup "TEST_TOOL1_CMD").getD ""),
      ("TOOL2_ARGS", (j.tool_options.lookup "TOOL2_ARGS").getD ""),
      ("LIST_TOOL2_CMD", (j.tool_options.lookup "LIST_TOOL2_CMD").getD ""),
      ("TEST_TOOL2_CMD", (j.tool_options.lookup "TEST_TOOL2_CMD").getD ""),
      ("CHECK_OUTPUT_CMD", (j.check_output_cmd).getD "")
    ])

/-- The fixed order of variable names every inner mapping carries. -/
def variableNames : List String :=
  ["PYTHON_VERSION", "SUBCOMMAND", "QT_VERSION", "HOST", "TARGET", "ARCH",
   "ARCHDIR", "MODULE", "QT_BASE_MIRROR", "SUBARCHIVES", "SPEC",
   "MINGW_VARIANT", "MINGW_FOLDER", "IS_AUTODESKTOP", "HAS_WASM",
   "OUTPUT_DIR", "QT_BINDIR", "WIN_QT_BINDIR", "EMSDK_VERSION", "EMSDK_TAG",
   "WIN_AUTODESK_QT_BINDIR", "TOOL1_ARGS", "LIST_TOOL1_CMD",
   "TEST_TOOL1_CMD", "TOOL2_ARGS", "LIST_TOOL2_CMD", "TEST_TOOL2_CMD",
   "CHECK_OUTPUT_CMD"]

/-- Assignment `d[k] = v` on an insertion-ordered dictionary: an existing
key keeps its position and its value is overwritten, a fresh key is
appended. -/
def insertOD {V : Type} (d : List (String × V)) (k : String) (v : V) :
    List (String × V) :=
  if d.any (fun e => e.1 == k) then
    d.map (fun e => if e.1 == k then (k, v) else e)
  else d ++ [(k, v)]

/-- The pairs of `itertools.product(jobs, python_versions)`: jobs outermost, versions
innermost, preserving order. -/
def jobPythonPairs (jobs : List BuildJob) (pvs : List String) :
    List (BuildJob × String) :=
  jobs.flatMap (fun j => pvs.map (fun p => (j, p)))

/-- The per-platform loop body: fold the (job, python-version) pairs into an
ordered dictionary keyed by `matrixKey`. -/
def matrixDictionaryOf (jobs : List BuildJob) (pvs : List String) :
    Option (List (String × List (String × String))) :=
  (jobPythonPairs jobs pvs).foldlM
    (fun acc jp => (jobVariables jp.1 jp.2).map (fun vars => insertOD acc (matrixKey jp.1) vars))
    []

/-- Class `PlatformBuildJobs`: a platform name with its job list. -/
structure PlatformBuildJobs where
  platform : String
  build_jobs : List BuildJob
deriving Repr

def MIRRORS : List String :=
  ["https://ftp.jaist.ac.jp/pub/qtproject",
   "https://ftp1.nluug.nl/languages/qt",
   "https://mirrors.dotsrc.org/qtproject"]

def python_versions : List String := ["3.9"]

def qt_versions : List String := ["5.13.2", "5.15.2"]

/-- The windows job catalog.  Each job's `mirror=random.choice(MIRRORS)` is
modelled by a parameter holding the string the random choice returned. -/
def windows_build_jobs (mirror1 mirror2 : String) : List BuildJob :=
  [{ command := "install-qt", qt_version := "5.11.3", host := "windows",
     target := "desktop", arch := "win64_msvc2015_64", archdir := "msvc2015_64",
     subarchives := some "qttools qtbase qtwinextras qtmultimedia",
     mirror := some mirror1 },
   { command := "install-qt", qt_version := "5.11.3", host := "windows",
     target := "desktop", arch := "win32_mingw53", archdir := "mingw53_32",
     mingw_variant := "win32_mingw530",
     subarchives := some "qttools qtbase qtwinextras qtmultimedia",
     mirror := some mirror2 }]

/-- Lines 100-102 of the script: only the `"windows"` platform is
registered, whatever the `linux_build_jobs` and `mac_build_jobs` lists
hold. -/
def all_platform_build_jobs (windowsJobs linuxJobs macJobs : List BuildJob) :
    List PlatformBuildJobs :=
  [⟨"windows", windowsJobs⟩]

/-- The `matrices` dictionary: one ordered entry per registered platform. -/
def matricesOf (platforms : List PlatformBuildJobs) :
    Option (List (String × List (String × List (String × String)))) :=
  platforms.foldlM
    (fun acc p => (matrixDictionaryOf p.build_jobs python_versions).map
      (fun d => insertOD acc p.platform d))
    []

/-! JSON serialisation, modelling `json.dumps` with its defaults
(`ensure_ascii=True`, item separator `", "`, key separator `": "`). -/

def openBraceStr : String := String.mk [Char.ofNat 123]

def closeBraceStr : String := String.mk [Char.ofNat 125]

def hexDigitChar (n : Nat) : Char :=
  if n < 10 then Char.ofNat (48 + n) else Char.ofNat (87 + n)

def uEscape (n : Nat) : List Char :=
  ['\\', 'u', hexDigitChar (n / 4096 % 16), hexDigitChar (n / 256 % 16),
   hexDigitChar (n / 16 % 16), hexDigitChar (n % 16)]

/-- The `json.dumps` escaping of one character under `ensure_ascii=True`. -/
def jsonEscapeChar (c : Char) : List Char :=
  if c = '"' then ['\\', '"']
  else if c = '\\' then ['\\', '\\']
  else if c = Char.ofNat 8 then ['\\', 'b']
  else if c = Char.ofNat 9 then ['\\', 't']
  else if c = Char.ofNat 10 then ['\\', 'n']
  else if c = Char.ofNat 12 then ['\\', 'f']
  else if c = Char.ofNat 13 then ['\\', 'r']
  else if c.toNat < 32 then uEscape c.toNat
  else if c.toNat < 127 then [c]
  else if c.toNat < 65536 then uEscape c.toNat
  else
    uEscape (55296 + (c.toNat - 65536) / 1024) ++
      uEscape (56320 + (c.toNat - 65536) % 1024)

def jsonString (s : String) : String :=
  String.mk ('"' :: (s.data.flatMap jsonEscapeChar) ++ ['"'])

/-- A flat string-to-string JSON object, insertion order preserved. -/
def jsonInner (vars : List (String × String)) : String :=
  openBraceStr ++
    String.intercalate ", "
      (vars.map (fun e => jsonString e.1 ++ ": " ++ jsonString e.2)) ++
    closeBraceStr

/-- A JSON object whose values are flat objects, insertion order
preserved: `json.dumps(matrix_dictionary)`. -/
def jsonOuter (d : List (String × List (String × String))) : String :=
  openBraceStr ++
    String.intercalate ", "
      (d.map (fun e => jsonString e.1 ++ ": " ++ jsonInner e.2)) ++
    closeBraceStr

/-- The four `print(...)` calls at the end of the script, in order.  The
`linux` and `mac` payloads are the hardcoded f-string interpolation of an
empty literal; only the windows matrix is serialised. -/
def outputLinesOf (windowsJobs linuxJobs macJobs : List BuildJob) :
    Option (List String) :=
  (matricesOf (all_platform_build_jobs windowsJobs linuxJobs macJobs)).map
    (fun ms =>
      ["Setting Variables below",
       "##vso[task.setVariable variable=windows;isOutput=true]" ++
         jsonOuter ((ms.lookup "windows").getD []),
       "##vso[task.setVariable variable=linux;isOutput=true]" ++ "",
       "##vso[task.setVariable variable=mac;isOutput=true]" ++ ""])

/-- The script's stdout lines as a function of the two random mirror
choices; the source's `linux_build_jobs` and `mac_build_jobs` are the
empty lists. -/
def output_lines (mirror1 mirror2 : String) : Option (List String) :=
  outputLinesOf (windows_build_jobs mirror1 mirror2) [] []

/-- The exact bytes written to stdout (`print` appends a newline to each
line). -/
def stdoutText (mirror1 mirror2 : String) : Option String :=
  (output_lines mirror1 mirror2).map
    (fun ls => String.join (ls.map (fun l => l ++ "\n")))

/-- A job built with only the six required constructor arguments; every
optional field keeps its Python default. -/
def mkJob (command qt_version host target arch archdir : String) : BuildJob :=
  { command := command, qt_version := qt_version, host := host,
    target := target, arch := arch, archdir := archdir }

/-- The same job with `tool_options` carrying a single `TOOL1_ARGS` entry. -/
def withTool1Args (j : BuildJob) (v : String) : BuildJob :=
  { j with tool_options := [("TOOL1_ARGS", v)] }

/-! Helper lemmas. -/

lemma dropStart_eq_some (p : List Char) :
    ∀ cs r, dropStart p cs = some r ↔ cs = p ++ r := by
  induction p with
  | nil => intro cs r; simp [dropStart]
  | cons q qs ih =>
    intro cs r
    cases cs with
    | nil => simp [dropStart]
    | cons c cs' =>
      by_cases h : c = q
      · subst h; simp [dropStart, ih]
      · simp [dropStart, h]

lemma takeWhile_append_not (p : Char → Bool) :
    ∀ (d : List Char) (c : Char) (t : List Char),
      (∀ x ∈ d, p x = true) → p c = false →
      (d ++ c :: t).takeWhile p = d ∧ (d ++ c :: t).dropWhile p = c :: t := by
  intro d
  induction d with
  | nil =>
    intro c t _ hc
    constructor <;> simp [List.takeWhile_cons, List.dropWhile_cons, hc]
  | cons x xs ih =>
    intro c t hd hc
    have hx : p x = true := hd x (by simp)
    obtain ⟨h1, h2⟩ := ih c t (fun y hy => hd y (by simp [hy])) hc
    constructor <;>
      simp [List.takeWhile_cons, List.dropWhile_cons, hx, h1, h2]

/-- ASCII digits are among the characters Python regex digit class matches. -/
lemma isDigit_isDigitRe {c : Char} (h : c.isDigit = true) : isDigitRe c = true := by
  simp only [Char.isDigit, Bool.and_eq_true, ge_iff_le, decide_eq_true_eq] at h
  obtain ⟨h1, h2⟩ := h
  rw [isDigitRe, List.any_eq_true]
  refine ⟨(48, 57), by simp [ndDigitRanges], ?_⟩
  simp only [decide_eq_true_eq]
  have g1 : (48 : UInt32).toBitVec.toNat ≤ c.val.toBitVec.toNat :=
    BitVec.le_def.mp (UInt32.le_def.mp h1)
  have g2 : c.val.toBitVec.toNat ≤ (57 : UInt32).toBitVec.toNat :=
    BitVec.le_def.mp (UInt32.le_def.mp h2)
  exact ⟨g1, g2⟩

/-- Completeness of the regex model: a well-formed variant is accepted and
decomposed into its two digit groups. -/
lemma parseMingw_complete (d1 d2 : List Char) (h1 : d1 ≠ []) (h2 : d2 ≠ [])
    (hd1 : ∀ c ∈ d1, isDigitRe c = true) (hd2 : ∀ c ∈ d2, isDigitRe c = true) :
    parseMingw ("win".data ++ (d1 ++ '_' :: 'm' :: 'i' :: 'n' :: 'g' :: 'w' :: d2)) =
      some (d1, d2) := by
  have hwin :
      dropStart "win".data
        ("win".data ++ (d1 ++ '_' :: 'm' :: 'i' :: 'n' :: 'g' :: 'w' :: d2)) =
      some (d1 ++ '_' :: 'm' :: 'i' :: 'n' :: 'g' :: 'w' :: d2) :=
    (dropStart_eq_some _ _ _).mpr rfl
  obtain ⟨ht, hdw⟩ :=
    takeWhile_append_not isDigitRe d1 '_' ('m' :: 'i' :: 'n' :: 'g' :: 'w' :: d2)
      hd1 (by decide)
  have hmid : dropStart "_mingw".data ('_' :: 'm' :: 'i' :: 'n' :: 'g' :: 'w' :: d2) =
      some d2 := (dropStart_eq_some _ _ _).mpr rfl
  have ht2 : d2.takeWhile isDigitRe = d2 := List.takeWhile_eq_self_iff.mpr hd2
  have hdw2 : d2.dropWhile isDigitRe = [] := List.dropWhile_eq_nil_iff.mpr hd2
  rw [parseMingw, hwin, Option.some_bind]
  simp only [ht, hdw, if_neg h1]
  rw [hmid, Option.some_bind]
  simp only [ht2, hdw2, if_neg h2, if_pos rfl]
  simp

lemma splitOnChar_not_mem (c : Char) :
    ∀ xs ys, c ∉ xs → splitOnChar c (xs ++ c :: ys) = xs :: splitOnChar c ys := by
  intro xs
  induction xs with
  | nil => intro ys _; simp [splitOnChar]
  | cons x xs ih =>
    intro ys hx
    have hxc : ¬(x = c) := fun hh => hx (by simp [hh])
    have hrec := ih ys (fun hh => hx (by simp [hh]))
    show splitOnChar c (x :: (xs ++ c :: ys)) = (x :: xs) :: splitOnChar c ys
    rw [splitOnChar, if_neg hxc, hrec]

lemma emsdk_split_no_at {s : String} (h : ¬ '@' ∈ s.data) :
    emsdk_split s = (s, "main") := by
  have hs : splitOnChar '@' (s.data ++ '@' :: "main".data) =
      s.data :: splitOnChar '@' "main".data :=
    splitOnChar_not_mem '@' s.data "main".data h
  have hmain : splitOnChar '@' "main".data = ["main".data] := rfl
  rw [hmain] at hs
  simp only [emsdk_split, hs, List.getD]
  exact rfl

/-- Inversion for `jobVariables`: a successful derivation exposes the
mingw folder and the explicit ordered variable list. -/
lemma jobVariables_some {j : BuildJob} {pv : String} {l : List (String × String)}
    (h : jobVariables j pv = some l) :
    ∃ mf, mingw_folder j.mingw_variant = some mf ∧
      l = [
        ("PYTHON_VERSION", pv),
        ("SUBCOMMAND", j.command),
        ("QT_VERSION", j.qt_version),
        ("HOST", j.host),
        ("TARGET", j.target),
        ("ARCH", j.arch),
        ("ARCHDIR", j.archdir),
        ("MODULE", if truthy j.module then j.module.getD "" else ""),
        ("QT_BASE_MIRROR", if truthy j.mirror then j.mirror.getD "" else ""),
        ("SUBARCHIVES", if truthy j.subarchives then j.subarchives.getD "" else ""),
        ("SPEC", if truthy j.spec then j.spec.getD "" else ""),
        ("MINGW_VARIANT", j.mingw_variant),
        ("MINGW_FOLDER", mf),
        ("IS_AUTODESKTOP", if j.is_autodesktop then "True" else "False"),
        ("HAS_WASM", (j.list_options.lookup "HAS_WASM").getD "True"),
        ("OUTPUT_DIR", if truthy j.output_dir then j.output_dir.getD "" else ""),
        ("QT_BINDIR", j.qt_bindir "/"),
        ("WIN_QT_BINDIR", j.win_qt_bindir),
        ("EMSDK_VERSION", (emsdk_split j.emsdk_version).1),
        ("EMSDK_TAG", (emsdk_split j.emsdk_version).2),
        ("WIN_AUTODESK_QT_BINDIR", j.win_autodesk_qt_bindir),
        ("TOOL1_ARGS", (j.tool_options.lookup "TOOL1_ARGS").getD ""),
        ("LIST_TOOL1_CMD", (j.tool_options.lookup "LIST_TOOL1_CMD").getD ""),
        ("TEST_TOOL1_CMD", (j.tool_options.lookup "TEST_TOOL1_CMD").getD ""),
        ("TOOL2_ARGS", (j.tool_options.lookup "TOOL2_ARGS").getD ""),
        ("LIST_TOOL2_CMD", (j.tool_options.lookup "LIST_TOOL2_CMD").getD ""),
        ("TEST_TOOL2_CMD", (j.tool_options.lookup "TEST_TOOL2_CMD").getD ""),
        ("CHECK_OUTPUT_CMD", (j.check_output_cmd).getD "")
      ] := by
  rw [jobVariables] at h
  cases hm : mingw_folder j.mingw_variant with
  | none => rw [hm] at h; exact absurd h (by simp)
  | some mf =>
    rw [hm, Option.map_some'] at h
    exact ⟨mf, rfl, (Option.some.inj h).symm⟩

/-- The two bin-dir variables always carry `qt_bindir` with the two
separator conventions. -/
lemma lookup_qt_bindir {j : BuildJob} {pv : String} {l : List (String × String)}
    (h : jobVariables j pv = some l) :
    l.lookup "QT_BINDIR" = some (j.qt_bindir "/") ∧
      l.lookup "WIN_QT_BINDIR" = some (j.win_qt_bindir) := by
  obtain ⟨mf, hmf, hl⟩ := jobVariables_some h
  subst hl
  exact ⟨rfl, rfl⟩

/-- The derivation `qt_bindir` written with its root split off. -/
lemma qt_bindir_root (j : BuildJob) (sep root : String)
    (hroot : qtOutDir j sep = root) :
    j.qt_bindir sep =
      root ++ (sep ++ (qtVersionDir j ++ (sep ++ (j.archdir ++ (sep ++ "bin"))))) := by
  rw [BuildJob.qt_bindir, hroot]
  simp only [String.append_assoc]

/-- Claim C4: `mingw_folder` maps the variant `"win32_mingw530"` to
`"mingw530_32"`, maps the empty variant to `""`, and in general reorders a
variant of shape `win<digits>_mingw<digits>` to `mingw<digits>_<digits>`. -/
theorem C4_mingw_folder_reorders :
    mingw_folder "win32_mingw530" = some "mingw530_32" ∧
    mingw_folder "" = some "" ∧
    ∀ d1 d2 : List Char, d1 ≠ [] → d2 ≠ [] →
      (∀ c ∈ d1, c.isDigit = true) → (∀ c ∈ d2, c.isDigit = true) →
      mingw_folder
          (String.mk ("win".data ++ (d1 ++ '_' :: 'm' :: 'i' :: 'n' :: 'g' :: 'w' :: d2))) =
        some (String.mk ('m' :: 'i' :: 'n' :: 'g' :: 'w' :: (d2 ++ '_' :: d1))) := by
  refine ⟨by decide, by decide, ?_⟩
  intro d1 d2 h1 h2 hd1 hd2
  have hne :
      String.mk ("win".data ++ (d1 ++ '_' :: 'm' :: 'i' :: 'n' :: 'g' :: 'w' :: d2)) ≠ "" := by
    intro hh
    have hdd := congrArg String.data hh
    simp at hdd
  rw [mingw_folder, if_neg hne]
  have hdata :
      (String.mk ("win".data ++ (d1 ++ '_' :: 'm' :: 'i' :: 'n' :: 'g' :: 'w' :: d2))).data =
        "win".data ++ (d1 ++ '_' :: 'm' :: 'i' :: 'n' :: 'g' :: 'w' :: d2) := rfl
  rw [hdata, parseMingw_complete d1 d2 h1 h2
    (fun c hc => isDigit_isDigitRe (hd1 c hc))
    (fun c hc => isDigit_isDigitRe (hd2 c hc))]

/-- Witness for C4 at the concrete digit groups `32` and `530`. -/
theorem C4_mingw_folder_reorders_witness :
    mingw_folder
        (String.mk ("win".data ++ ("32".data ++ '_' :: 'm' :: 'i' :: 'n' :: 'g' :: 'w' :: "530".data))) =
      some (String.mk ('m' :: 'i' :: 'n' :: 'g' :: 'w' :: ("530".data ++ '_' :: "32".data))) :=
  C4_mingw_folder_reorders.2.2 "32".data "530".data (by decide) (by decide)
    (by decide) (by decide)

/-- Claim C6: `qt_bindir` uses the directory segment `"5.9"` exactly for
`qt_version = "5.9.0"` and the version string verbatim otherwise, joined
as base dir, version segment, archdir and `bin` by the separator. -/
theorem C6_qt_bindir_version_segment :
    ∀ (j : BuildJob) (sep : String),
      (j.qt_version = "5.9.0" →
        j.qt_bindir sep =
          qtOutDir j sep ++ sep ++ "5.9" ++ sep ++ j.archdir ++ sep ++ "bin") ∧
      (j.qt_version ≠ "5.9.0" →
        j.qt_bindir sep =
          qtOutDir j sep ++ sep ++ j.qt_version ++ sep ++ j.archdir ++ sep ++ "bin") := by
  intro j sep
  constructor
  · intro h; rw [BuildJob.qt_bindir, qtVersionDir, if_pos h]
  · intro h; rw [BuildJob.qt_bindir, qtVersionDir, if_neg h]

/-- Witness for C6 at version `"5.9.0"` and at version `"5.11.3"`. -/
theorem C6_qt_bindir_version_segment_witness :
    ((mkJob "install-qt" "5.9.0" "windows" "desktop" "a" "d").qt_bindir "/" =
      qtOutDir (mkJob "install-qt" "5.9.0" "windows" "desktop" "a" "d") "/" ++ "/" ++ "5.9" ++ "/" ++
        (mkJob "install-qt" "5.9.0" "windows" "desktop" "a" "d").archdir ++ "/" ++ "bin") ∧
    ((mkJob "install-qt" "5.11.3" "windows" "desktop" "a" "d").qt_bindir "/" =
      qtOutDir (mkJob "install-qt" "5.11.3" "windows" "desktop" "a" "d") "/" ++ "/" ++ "5.11.3" ++ "/" ++
        (mkJob "install-qt" "5.11.3" "windows" "desktop" "a" "d").archdir ++ "/" ++ "bin") :=
  ⟨(C6_qt_bindir_version_segment (mkJob "install-qt" "5.9.0" "windows" "desktop" "a" "d") "/").1 rfl,
   (C6_qt_bindir_version_segment (mkJob "install-qt" "5.11.3" "windows" "desktop" "a" "d") "/").2 (by decide)⟩

/-- Claim C7: with `output_dir` unset (Python-falsy) the `QT_BINDIR`
variable is rooted at `$(Build.BinariesDirectory)/Qt` and `WIN_QT_BINDIR`
at the backslash equivalent; with `output_dir` set, both are rooted at
the override, whatever separator the rest of the path uses. -/
theorem C7_output_dir_rooting :
    ∀ (j : BuildJob) (pv : String) (l : List (String × String)),
      jobVariables j pv = some l →
      (truthy j.output_dir = false →
        (∃ r, l.lookup "QT_BINDIR" = some ("$(Build.BinariesDirectory)/Qt" ++ r)) ∧
        (∃ r, l.lookup "WIN_QT_BINDIR" = some ("$(Build.BinariesDirectory)\\Qt" ++ r))) ∧
      (∀ s : String, j.output_dir = some s → s ≠ "" →
        (∃ r, l.lookup "QT_BINDIR" = some (s ++ r)) ∧
        (∃ r, l.lookup "WIN_QT_BINDIR" = some (s ++ r))) := by
  intro j pv l h
  obtain ⟨hq, hw⟩ := lookup_qt_bindir h
  constructor
  · intro hfalse
    have hcond : ¬ (truthy j.output_dir = true) := by simp [hfalse]
    have hr1 : qtOutDir j "/" = "$(Build.BinariesDirectory)/Qt" := by
      rw [qtOutDir, if_neg hcond]; decide
    have hr2 : qtOutDir j "\\" = "$(Build.BinariesDirectory)\\Qt" := by
      rw [qtOutDir, if_neg hcond]; decide
    exact ⟨⟨_, by rw [hq, qt_bindir_root j "/" _ hr1]⟩,
      ⟨_, by rw [hw, BuildJob.win_qt_bindir, qt_bindir_root j "\\" _ hr2]⟩⟩
  · intro s hs hsne
    have hcond : truthy j.output_dir = true := by
      rw [hs]; simp [truthy, hsne]
    have hout : ∀ sep : String, qtOutDir j sep = s := by
      intro sep; rw [qtOutDir, if_pos hcond, hs]; rfl
    exact ⟨⟨_, by rw [hq, qt_bindir_root j "/" _ (hout "/")]⟩,
      ⟨_, by rw [hw, BuildJob.win_qt_bindir, qt_bindir_root j "\\" _ (hout "\\")]⟩⟩

/-- Witness for C7: a default job (no `output_dir`) and a job with the
override `"D:/out"`. -/
theorem C7_output_dir_rooting_witness :
    ((∃ r, ((jobVariables (mkJob "install-qt" "5.11.3" "windows" "desktop" "a" "d") "3.9").getD
        []).lookup "QT_BINDIR" = some ("$(Build.BinariesDirectory)/Qt" ++ r)) ∧
      (∃ r, ((jobVariables (mkJob "install-qt" "5.11.3" "windows" "desktop" "a" "d") "3.9").getD
        []).lookup "WIN_QT_BINDIR" = some ("$(Build.BinariesDirectory)\\Qt" ++ r))) ∧
    ((∃ r, ((jobVariables
        { mkJob "install-qt" "5.11.3" "windows" "desktop" "a" "d" with output_dir := some "D:/out" }
        "3.9").getD []).lookup "QT_BINDIR" = some ("D:/out" ++ r)) ∧
      (∃ r, ((jobVariables
        { mkJob "install-qt" "5.11.3" "windows" "desktop" "a" "d" with output_dir := some "D:/out" }
        "3.9").getD []).lookup "WIN_QT_BINDIR" = some ("D:/out" ++ r))) :=
  ⟨(C7_output_dir_rooting (mkJob "install-qt" "5.11.3" "windows" "desktop" "a" "d") "3.9"
      ((jobVariables (mkJob "install-qt" "5.11.3" "windows" "desktop" "a" "d") "3.9").getD [])
      rfl).1 rfl,
   (C7_output_dir_rooting
      { mkJob "install-qt" "5.11.3" "windows" "desktop" "a" "d" with output_dir := some "D:/out" }
      "3.9"
      ((jobVariables
        { mkJob "install-qt" "5.11.3" "windows" "desktop" "a" "d" with output_dir := some "D:/out" }
        "3.9").getD [])
      rfl).2 "D:/out" rfl (by decide)⟩

/-- Claim C9: every successful derivation carries exactly the fixed
variable names in order; absent optional fields serialize to `""` (with
literal defaults `"True"` for `HAS_WASM` and `"main"` for the toolchain
tag), never to an absent entry and never raising; no `tool_options` gives
six empty tool variables, and only `TOOL1_ARGS` set gives that value and
five empty strings. -/
theorem C9_absent_optional_fields :
    (∀ (j : BuildJob) (pv : String) (l : List (String × String)),
      jobVariables j pv = some l → l.map Prod.fst = variableNames) ∧
    (∀ c q h t a ad pv : String, ∃ l,
      jobVariables (mkJob c q h t a ad) pv = some l ∧
      l.lookup "MODULE" = some "" ∧
      l.lookup "QT_BASE_MIRROR" = some "" ∧
      l.lookup "SUBARCHIVES" = some "" ∧
      l.lookup "SPEC" = some "" ∧
      l.lookup "MINGW_VARIANT" = some "" ∧
      l.lookup "MINGW_FOLDER" = some "" ∧
      l.lookup "HAS_WASM" = some "True" ∧
      l.lookup "OUTPUT_DIR" = some "" ∧
      l.lookup "TOOL1_ARGS" = some "" ∧
      l.lookup "LIST_TOOL1_CMD" = some "" ∧
      l.lookup "TEST_TOOL1_CMD" = some "" ∧
      l.lookup "TOOL2_ARGS" = some "" ∧
      l.lookup "LIST_TOOL2_CMD" = some "" ∧
      l.lookup "TEST_TOOL2_CMD" = some "" ∧
      l.lookup "CHECK_OUTPUT_CMD" = some "") ∧
    (∀ c q h t a ad pv v : String, ∃ l,
      jobVariables (withTool1Args (mkJob c q h t a ad) v) pv = some l ∧
      l.lookup "TOOL1_ARGS" = some v ∧
      l.lookup "LIST_TOOL1_CMD" = some "" ∧
      l.lookup "TEST_TOOL1_CMD" = some "" ∧
      l.lookup "TOOL2_ARGS" = some "" ∧
      l.lookup "LIST_TOOL2_CMD" = some "" ∧
      l.lookup "TEST_TOOL2_CMD" = some "") ∧
    (∀ (j : BuildJob) (pv : String) (l : List (String × String)),
      jobVariables j pv = some l → ¬ '@' ∈ j.emsdk_version.data →
      l.lookup "EMSDK_TAG" = some "main") := by
  refine ⟨?_, ?_, ?_, ?_⟩
  · intro j pv l h
    obtain ⟨mf, hmf, hl⟩ := jobVariables_some h
    subst hl
    rfl
  · intro c q h t a ad pv
    exact ⟨_, rfl, rfl, rfl, rfl, rfl, rfl, rfl, rfl, rfl, rfl, rfl, rfl, rfl, rfl,
      rfl, rfl⟩
  · intro c q h t a ad pv v
    exact ⟨_, rfl, rfl, rfl, rfl, rfl, rfl, rfl⟩
  · intro j pv l h hat
    obtain ⟨mf, hmf, hl⟩ := jobVariables_some h
    subst hl
    show some (emsdk_split j.emsdk_version).2 = some "main"
    rw [emsdk_split_no_at hat]

/-- Witness for C9: the variable-name list of a concrete default job, and
its `EMSDK_TAG` when the toolchain field has no `@`. -/
theorem C9_absent_optional_fields_witness :
    ((jobVariables (mkJob "install-qt" "5.11.3" "windows" "desktop" "a" "d") "3.9").getD
        []).map Prod.fst = variableNames ∧
    ((jobVariables
        { mkJob "install-qt" "5.11.3" "windows" "desktop" "a" "d" with emsdk_version := "sdk-1.38" }
        "3.9").getD []).lookup "EMSDK_TAG" = some "main" :=
  ⟨C9_absent_optional_fields.1 (mkJob "install-qt" "5.11.3" "windows" "desktop" "a" "d") "3.9"
      ((jobVariables (mkJob "install-qt" "5.11.3" "windows" "desktop" "a" "d") "3.9").getD [])
      rfl,
   C9_absent_optional_fields.2.2.2
      { mkJob "install-qt" "5.11.3" "windows" "desktop" "a" "d" with emsdk_version := "sdk-1.38" }
      "3.9"
      ((jobVariables
        { mkJob "install-qt" "5.11.3" "windows" "desktop" "a" "d" with emsdk_version := "sdk-1.38" }
        "3.9").getD [])
      rfl (by decide)⟩

/-- Claim C8: the combined `version@tag` field splits as stated, the tag
defaults to `"main"` when no `@` is present, and the two derived
variables carry exactly the two halves. -/
theorem C8_emsdk_split_contract :
    emsdk_split "sdk-fastcomp-1.38.27-64bit@3.1.29" =
      ("sdk-fastcomp-1.38.27-64bit", "3.1.29") ∧
    (∀ s : String, ¬ '@' ∈ s.data → emsdk_split s = (s, "main")) ∧
    (∀ (j : BuildJob) (pv : String) (l : List (String × String)),
      jobVariables j pv = some l →
      l.lookup "EMSDK_VERSION" = some (emsdk_split j.emsdk_version).1 ∧
      l.lookup "EMSDK_TAG" = some (emsdk_split j.emsdk_version).2) := by
  refine ⟨by decide, fun s h => emsdk_split_no_at h, ?_⟩
  intro j pv l h
  obtain ⟨mf, hmf, hl⟩ := jobVariables_some h
  subst hl
  exact ⟨rfl, rfl⟩

/-- Witness for C8: no-`@` input `"sdk-1.38.27"`, and the derived
variables of a concrete default job. -/
theorem C8_emsdk_split_contract_witness :
    emsdk_split "sdk-1.38.27" = ("sdk-1.38.27", "main") ∧
    ((jobVariables (mkJob "install-qt" "5.11.3" "windows" "desktop" "a" "d") "3.9").getD []).lookup
        "EMSDK_TAG" =
      some (emsdk_split (mkJob "install-qt" "5.11.3" "windows" "desktop" "a" "d").emsdk_version).2 :=
  ⟨C8_emsdk_split_contract.2.1 "sdk-1.38.27" (by decide),
   (C8_emsdk_split_contract.2.2 (mkJob "install-qt" "5.11.3" "windows" "desktop" "a" "d") "3.9"
      ((jobVariables (mkJob "install-qt" "5.11.3" "windows" "desktop" "a" "d") "3.9").getD [])
      rfl).2⟩

/-- Claim C1: for the platform catalog, the output mapping has exactly one
entry per (job, interpreter-version) pair — its keys are the derived
matrix keys of the pairs in order, without duplicates, so its size equals
the number of pairs. -/
theorem C1_one_entry_per_pair :
    ∀ mirror1 mirror2 : String,
      ∃ d, matrixDictionaryOf (windows_build_jobs mirror1 mirror2) python_versions = some d ∧
        d.map Prod.fst =
          (jobPythonPairs (windows_build_jobs mirror1 mirror2) python_versions).map
            (fun jp => matrixKey jp.1) ∧
        ((jobPythonPairs (windows_build_jobs mirror1 mirror2) python_versions).map
            (fun jp => matrixKey jp.1)).Nodup ∧
        d.length = (windows_build_jobs mirror1 mirror2).length * python_versions.length := by
  intro mirror1 mirror2
  have hkeys :
      (jobPythonPairs (windows_build_jobs mirror1 mirror2) python_versions).map
          (fun jp => matrixKey jp.1) =
        ["install-qt 5.11.3 win64_msvc2015_64 for desktop (qttools qtbase qtwinextras qtmultimedia)",
         "install-qt 5.11.3 win32_mingw53 for desktop (qttools qtbase qtwinextras qtmultimedia)"] :=
    rfl
  refine ⟨_, rfl, rfl, ?_, rfl⟩
  rw [hkeys]
  decide

/-- Claim C2: generation is deterministic — two runs over the same catalog
with the same mirror picks produce byte-identical stdout, including the
serialized windows JSON with its entry order. -/
theorem C2_deterministic_output :
    ∀ mirror1 mirror2 mirror1' mirror2' : String,
      mirror1 = mirror1' → mirror2 = mirror2' →
      stdoutText mirror1 mirror2 = stdoutText mirror1' mirror2' ∧
      (matrixDictionaryOf (windows_build_jobs mirror1 mirror2) python_versions).map jsonOuter =
        (matrixDictionaryOf (windows_build_jobs mirror1' mirror2') python_versions).map jsonOuter := by
  intro m1 m2 m1' m2' h1 h2
  subst h1
  subst h2
  exact ⟨rfl, rfl⟩

/-- Witness for C2 at the first mirror of `MIRRORS` for both jobs. -/
theorem C2_deterministic_output_witness :
    stdoutText "https://ftp.jaist.ac.jp/pub/qtproject" "https://ftp.jaist.ac.jp/pub/qtproject" =
      stdoutText "https://ftp.jaist.ac.jp/pub/qtproject" "https://ftp.jaist.ac.jp/pub/qtproject" ∧
    (matrixDictionaryOf
        (windows_build_jobs "https://ftp.jaist.ac.jp/pub/qtproject"
          "https://ftp.jaist.ac.jp/pub/qtproject") python_versions).map jsonOuter =
      (matrixDictionaryOf
        (windows_build_jobs "https://ftp.jaist.ac.jp/pub/qtproject"
          "https://ftp.jaist.ac.jp/pub/qtproject") python_versions).map jsonOuter :=
  C2_deterministic_output "https://ftp.jaist.ac.jp/pub/qtproject"
    "https://ftp.jaist.ac.jp/pub/qtproject" "https://ftp.jaist.ac.jp/pub/qtproject"
    "https://ftp.jaist.ac.jp/pub/qtproject" rfl rfl

/-- Counterexample to claim C3 as stated: the program writes FOUR lines to
standard output, not three — the banner line `Setting Variables below`
precedes the three platform lines and does not begin with the `#` of the
`##vso[...]` form. -/
theorem C3_counterexample :
    ∃ ls, output_lines "https://ftp.jaist.ac.jp/pub/qtproject"
        "https://ftp1.nluug.nl/languages/qt" = some ls ∧
      ls.length = 4 ∧ ¬ ls.length = 3 ∧
      ls.getD 0 "" = "Setting Variables below" ∧
      (ls.getD 0 "").data.getD 0 ' ' ≠ '#' := by
  refine ⟨(output_lines "https://ftp.jaist.ac.jp/pub/qtproject"
      "https://ftp1.nluug.nl/languages/qt").getD [], rfl, rfl, by decide, rfl, by decide⟩

/-- Claim C3 as amended: the program writes exactly four lines — a banner,
then one line per platform ("windows", "linux", "mac") of the exact form
`##vso[task.setVariable variable=<name>;isOutput=true]<payload>`, where
the windows payload is the serialized JSON object and the linux and mac
payloads are the literal empty string, not the empty JSON object and not
`null`. -/
theorem C3_output_line_format :
    ∀ mirror1 mirror2 : String,
      ∃ ls, output_lines mirror1 mirror2 = some ls ∧
        ls.length = 4 ∧
        ls.getD 0 "" = "Setting Variables below" ∧
        (∃ d, matrixDictionaryOf (windows_build_jobs mirror1 mirror2) python_versions = some d ∧
          ls.getD 1 "" =
            "##vso[task.setVariable variable=windows;isOutput=true]" ++ jsonOuter d) ∧
        ls.getD 2 "" = "##vso[task.setVariable variable=linux;isOutput=true]" ∧
        ls.getD 3 "" = "##vso[task.setVariable variable=mac;isOutput=true]" ∧
        ls.getD 2 "" ≠
          "##vso[task.setVariable variable=linux;isOutput=true]" ++ jsonOuter [] ∧
        ls.getD 3 "" ≠ "##vso[task.setVariable variable=mac;isOutput=true]" ++ "null" := by
  intro mirror1 mirror2
  refine ⟨_, rfl, rfl, rfl, ⟨_, rfl, rfl⟩, rfl, rfl, ?_, ?_⟩
  · exact fun hh =>
      (by decide : ¬ ("##vso[task.setVariable variable=linux;isOutput=true]" =
        "##vso[task.setVariable variable=linux;isOutput=true]" ++ jsonOuter [])) hh
  · exact fun hh =>
      (by decide : ¬ ("##vso[task.setVariable variable=mac;isOutput=true]" =
        "##vso[task.setVariable variable=mac;isOutput=true]" ++ "null")) hh

/-- Claim C10: only "windows" is registered in `all_platform_build_jobs`;
appending any job to the linux or mac catalog list leaves the emitted
output unchanged, and the linux and mac lines always carry the empty
payload. -/
theorem C10_linux_mac_always_empty :
    (∀ w l m : List BuildJob,
      all_platform_build_jobs w l m = [PlatformBuildJobs.mk "windows" w]) ∧
    (∀ (w l m : List BuildJob) (j : BuildJob),
      outputLinesOf w (l ++ [j]) m = outputLinesOf w l m ∧
      outputLinesOf w l (m ++ [j]) = outputLinesOf w l m) ∧
    (∀ (w l m : List BuildJob) (ls : List String),
      outputLinesOf w l m = some ls →
      ls.getD 2 "" = "##vso[task.setVariable variable=linux;isOutput=true]" ∧
      ls.getD 3 "" = "##vso[task.setVariable variable=mac;isOutput=true]") := by
  refine ⟨fun w l m => rfl, fun w l m j => ⟨rfl, rfl⟩, ?_⟩
  intro w l m ls h
  rw [outputLinesOf] at h
  cases hm : matricesOf (all_platform_build_jobs w l m) with
  | none => rw [hm] at h; exact absurd h (by simp)
  | some ms =>
    rw [hm, Option.map_some'] at h
    have hls := Option.some.inj h
    rw [← hls]
    exact ⟨rfl, rfl⟩

/-- Witness for C10: the concrete run with both mirrors fixed and empty
linux/mac catalogs. -/
theorem C10_linux_mac_always_empty_witness :
    ((outputLinesOf
        (windows_build_jobs "https://ftp.jaist.ac.jp/pub/qtproject"
          "https://ftp1.nluug.nl/languages/qt") [] []).getD []).getD 2 "" =
      "##vso[task.setVariable variable=linux;isOutput=true]" ∧
    ((outputLinesOf
        (windows_build_jobs "https://ftp.jaist.ac.jp/pub/qtproject"
          "https://ftp1.nluug.nl/languages/qt") [] []).getD []).getD 3 "" =
      "##vso[task.setVariable variable=mac;isOutput=true]" :=
  C10_linux_mac_always_empty.2.2
    (windows_build_jobs "https://ftp.jaist.ac.jp/pub/qtproject"
      "https://ftp1.nluug.nl/languages/qt") [] []
    ((outputLinesOf
        (windows_build_jobs "https://ftp.jaist.ac.jp/pub/qtproject"
          "https://ftp1.nluug.nl/languages/qt") [] []).getD [])
    rfl
